import Mathlib

/-!
Verification of the request-pipeline core of the balena-sdk repository
(`src/build/server-utils.js`) and of the device model
(`src/build/models/device.js`) against its natural-language specification.

The JavaScript code is callback-based: each asynchronous entry point
receives a continuation and invokes it with `(error)` or
`(null, result...)`.  We embed every entry point as a pure function from
its external inputs (the outcome of the injected collaborator: the
connectivity probe, the token store, the HTTP transport, the query
layer, the stream event trace) to the *list of callback invocations*
the code performs, in order.  A synchronous `throw` is embedded as
`Except.error` at the outer level, distinct from callback invocations.
JavaScript `Error` objects of `server-utils.js` carry only a message at
this layer, so they are embedded as their message `String`.
-/

namespace BalenaSdk

/-! ## `server-utils.js`: checkIfOnline (lines 24-34)

```js
exports.checkIfOnline = function(callback) {
  return connection.isOnline(function(error, isOnline) {
    if (error != null) { return callback(error); }
    if (isOnline) { return callback(); }
    return callback(new Error('You need internet connection to perform this task'));
  });
};
```

The probe `connection.isOnline` is an external collaborator; its outcome
is `Except String Bool` (an error, or the online flag).  A callback
invocation is `Option String`: `some e` for `callback(e)`, `none` for
`callback()` with no error. -/

def offlineMessage : String := "You need internet connection to perform this task"

def checkIfOnline (probe : Except String Bool) : List (Option String) :=
  match probe with
  | .error e => [some e]
  | .ok isOnline =>
      if isOnline then [none]
      else [some offlineMessage]

/-! ## `server-utils.js`: addAuthorizationHeader (lines 42-51)

```js
exports.addAuthorizationHeader = function(headers, token) {
  if (headers == null) { headers = {}; }
  if (token == null) { throw new Error('Missing token'); }
  headers.Authorization = "Bearer " + token;
  return headers;
};
```

A JavaScript object of header entries is embedded as an association list
of key/value pairs in insertion order; property assignment `obj[k] = v`
overwrites the entry for `k` in place if present and appends it
otherwise.  The `throw` is embedded as `Except.error`. -/

def Headers : Type := List (String × String)

def setProp (hs : List (String × String)) (k v : String) : List (String × String) :=
  if hs.any (fun p => p.1 = k) then
    hs.map (fun p => if p.1 = k then (k, v) else p)
  else
    hs ++ [(k, v)]

def addAuthorizationHeader (headers : Option (List (String × String)))
    (token : Option String) : Except String (List (String × String)) :=
  let hs := headers.getD []
  match token with
  | none => .error "Missing token"
  | some t => .ok (setProp hs "Authorization" ("Bearer " ++ t))

/-! ## `server-utils.js`: authenticate (lines 59-72)

```js
exports.authenticate = function(options, callback) {
  if (options == null) { throw new Error('Missing options'); }
  return auth.getToken(function(error, token) {
    if (error != null) { return callback(error); }
    if (token != null) {
      options.headers = exports.addAuthorizationHeader(options.headers, token);
    }
    return callback();
  });
};
```

The token store `auth.getToken` is external; its outcome is
`Except String (Option String)` (an error, or a token which may be
absent).  Request options are a structure with the `headers` field the
code touches plus an opaque remainder `rest` standing for every other
property; the result records the callback invocations together with the
final (possibly mutated) options.  The `throw new Error('Missing
options')` is `Except.error` at the outer (synchronous) level; a throw
out of `addAuthorizationHeader` inside the token callback would
propagate as well, but is unreachable since it is only called with a
present token. -/

structure ReqOptions where
  headers : Option (List (String × String))
  rest : List (String × String)
deriving DecidableEq, Repr

def authenticate (options : Option ReqOptions)
    (tokenResult : Except String (Option String)) :
    Except String (List (Option String) × ReqOptions) :=
  match options with
  | none => .error "Missing options"
  | some o =>
      match tokenResult with
      | .error e => .ok ([some e], o)
      | .ok none => .ok ([none], o)
      | .ok (some t) =>
          match addAuthorizationHeader o.headers (some t) with
          | .error e => .error e
          | .ok hs => .ok ([none], { o with headers := some hs })

/-! ## `server-utils.js`: sendRequest (lines 90-103)

```js
exports.sendRequest = function(options, callback) {
  return connection.request(options, function(error, response) {
    if (error != null) { return callback(error); }
    if (response.statusCode >= 400) { return callback(new Error(response.body)); }
    try { response.body = JSON.parse(response.body); } catch (_error) {}
    return callback(null, response, response.body);
  });
};
```

The transport `connection.request` is external; its outcome is
`Except String Response` with `Response` exposing the status code and
the body text.  `JSON.parse` is a JavaScript builtin, embedded as an
abstract parameter `parse : String → Option α` (`none` embeds the
parse throw, swallowed by the empty `catch`).  A callback invocation is
`SendCall α`: an error message, or a success carrying the status code
and the final body (raw text, or the parsed structure the code stored
back into `response.body`).  `sendRequestInstr` additionally counts how
many times `JSON.parse` is attempted. -/

structure Response where
  statusCode : Nat
  body : String
deriving DecidableEq, Repr

inductive BodyVal (α : Type) where
  | raw (s : String)
  | parsed (a : α)
deriving DecidableEq, Repr

inductive SendCall (α : Type) where
  | err (msg : String)
  | ok (statusCode : Nat) (body : BodyVal α)
deriving DecidableEq, Repr

def sendRequestInstr {α : Type} (parse : String → Option α)
    (outcome : Except String Response) : List (SendCall α) × Nat :=
  match outcome with
  | .error e => ([.err e], 0)
  | .ok r =>
      if 400 ≤ r.statusCode then ([.err r.body], 0)
      else
        match parse r.body with
        | some a => ([.ok r.statusCode (.parsed a)], 1)
        | none => ([.ok r.statusCode (.raw r.body)], 1)

def sendRequest {α : Type} (parse : String → Option α)
    (outcome : Except String Response) : List (SendCall α) :=
  (sendRequestInstr parse outcome).1

/-! ## `server-utils.js`: pipeRequest (lines 80-82)

```js
exports.pipeRequest = function(options, callback, onProgress) {
  return progress(connection.request(options))
    .on('progress', ProgressState.createFromNodeRequestProgress(onProgress))
    .on('error', callback)
    .pipe(options.pipe)
    .on('error', callback)
    .on('close', callback);
};
```

`.pipe(dest)` returns `dest`, so `callback` is registered as listener
for the progress-wrapped request stream's `'error'` event and for the
destination sink's `'error'` and `'close'` events, with no once-guard;
`onProgress` (through the progress-state adapter) is registered for
`'progress'`.  An emitter invokes every registered listener each time
the event fires, so the embedding maps the trace of emitted events to
the list of `callback` invocations: one per request-stream error, one
per sink error, one (with no argument) per sink close. -/

inductive PipeEvent where
  | reqProgress (transferred : Nat) (total : Option Nat)
  | reqError (e : String)
  | sinkError (e : String)
  | sinkClose
deriving DecidableEq, Repr

def pipeCallbackCalls : List PipeEvent → List (Option String)
  | [] => []
  | .reqProgress _ _ :: rest => pipeCallbackCalls rest
  | .reqError e :: rest => some e :: pipeCallbackCalls rest
  | .sinkError e :: rest => some e :: pipeCallbackCalls rest
  | .sinkClose :: rest => none :: pipeCallbackCalls rest

def PipeEvent.isTerminal : PipeEvent → Bool
  | .reqProgress _ _ => false
  | .reqError _ => true
  | .sinkError _ => true
  | .sinkClose => true

/-! ## Progress Tracker

Modelled from the spec: the Progress Tracker lives in
`progress-state.js`, which is not among the provided source files (only
its consumer `server-utils.js` is, through
`ProgressState.createFromNodeRequestProgress`).  Following spec section
4.4 word for word: the tracker keeps, per transfer, the cumulative bytes
so far and the timestamp of the previous sample; per raw event
(cumulative `transferred` bytes, optional stable `total`, timestamp) it
emits a snapshot with
`percentage = floor(100 * transferred / total)` when the total is known
(undefined otherwise, and a total of 0 is treated as undefined),
`speed = (bytes since previous sample) / (elapsed since previous
sample)` with the very first sample reporting speed 0 (and an elapsed
time of 0 treated as speed 0), and
`eta = (total - transferred) / speed` when speed > 0 and the total is
known (undefined otherwise).  Byte counts are naturals (so the floor in
`percentage` is natural division); times, speeds and etas are rationals. -/

structure RawTransferEvent where
  transferred : Nat
  total : Option Nat
  time : ℚ
deriving DecidableEq, Repr

structure ProgressSnapshot where
  percentage : Option Nat
  transferred : Nat
  total : Option Nat
  speed : ℚ
  eta : Option ℚ
deriving DecidableEq, Repr

structure TrackerState where
  prevTime : Option ℚ
  prevTransferred : Nat
deriving DecidableEq, Repr

def TrackerState.initial : TrackerState := ⟨none, 0⟩

def stepTracker (st : TrackerState) (e : RawTransferEvent) :
    ProgressSnapshot × TrackerState :=
  let speed : ℚ :=
    match st.prevTime with
    | none => 0
    | some t0 =>
        if e.time - t0 = 0 then 0
        else ((e.transferred : ℚ) - (st.prevTransferred : ℚ)) / (e.time - t0)
  let percentage : Option Nat :=
    match e.total with
    | none => none
    | some tot => if tot = 0 then none else some (100 * e.transferred / tot)
  let eta : Option ℚ :=
    match e.total with
    | none => none
    | some tot =>
        if 0 < speed then some (((tot : ℚ) - (e.transferred : ℚ)) / speed)
        else none
  (⟨percentage, e.transferred, e.total, speed, eta⟩, ⟨some e.time, e.transferred⟩)

def runTracker (st : TrackerState) : List RawTransferEvent → List ProgressSnapshot
  | [] => []
  | e :: rest =>
      let (snap, st2) := stepTracker st e
      snap :: runTracker st2 rest

/-! ## `models/device.js`

```js
exports.getAll = function(callback) {
  return pine.get({...}).then(function(devices) {
    if (_.isEmpty(devices)) { return callback(new errors.NotAny('devices')); }
    return callback(null, devices);
  })["catch"](function(error) { return callback(error); });
};

exports.getAllByApplication = function(applicationId, callback) {
  return pine.get({...}).then(function(devices) {
    if (_.isEmpty(devices)) { return callback(new errors.NotAny('devices')); }
    devices = _.map(devices, function(device) {
      device.application_name = device.application[0].app_name;
      return device;
    });
    return callback(null, devices);
  })["catch"](function(error) { return callback(error); });
};

exports.get = function(deviceId, callback) {
  return pine.get({...}).then(function(device) {
    if (device == null) { return callback(new errors.NotFound("device " + id)); }
    device.application_name = device.application[0].app_name;
    return callback(null, device);
  })["catch"](function(error) { return callback(error); });
};
```

The query layer `pine.get` is external; its outcome is an `Except` of a
collection (for the listings) or an optional single device (for `get`).
Errors at this layer are typed (the `errors` module provides `NotFound`
and `NotAny` classes, and the JavaScript runtime raises `ReferenceError`
and `TypeError`), so the device embedding uses a dedicated error type.
A throw inside a `.then` handler rejects the derived promise and is
caught by the chained `catch` handler, which passes it to the callback;
the embedding routes handler faults accordingly.

`device.application[0].app_name`: a device is embedded as its expanded
list of application names (`application`, where each element stands for
an `app_name`) plus the `application_name` property the handler
assigns.  When `application` is empty, `application[0]` is `undefined`
and reading `.app_name` from it throws a `TypeError`.

In `exports.get`, the not-found branch builds its message from the
identifier `id`, but the binding in scope is named `deviceId`: the
handler's scope chain (handler parameter `device`, enclosing function
parameters `deviceId` and `callback`, module variables `DEVICES`,
`errors`, `pine`, `server`, `settings`, `_`, and `exports`) binds no
`id`, so evaluating `id` throws a `ReferenceError`.  The embedding
makes this honest by evaluating the message under the explicit
environment of string-valued bindings visible in that handler. -/

inductive DevErr where
  | notFound (msg : String)
  | notAny (what : String)
  | referenceError (msg : String)
  | typeError (msg : String)
  | queryError (msg : String)
deriving DecidableEq, Repr

structure Device where
  application : List String
  application_name : Option String
  rest : List (String × String)
deriving DecidableEq, Repr

inductive DevListCall where
  | err (e : DevErr)
  | ok (devices : List Device)
deriving DecidableEq, Repr

inductive DevGetCall where
  | err (e : DevErr)
  | ok (device : Device)
deriving DecidableEq, Repr

def setApplicationName (d : Device) : Except DevErr Device :=
  match d.application.head? with
  | none => .error (.typeError "Cannot read property app_name of undefined")
  | some appName => .ok { d with application_name := some appName }

def getAll (queryResult : Except DevErr (List Device)) : List DevListCall :=
  match queryResult with
  | .error e => [.err e]
  | .ok devices =>
      if devices.isEmpty then [.err (.notAny "devices")]
      else [.ok devices]

def mapSetApplicationName : List Device → Except DevErr (List Device)
  | [] => .ok []
  | d :: rest =>
      match setApplicationName d with
      | .error e => .error e
      | .ok d2 => (mapSetApplicationName rest).map (fun ds => d2 :: ds)

def getAllByApplication (queryResult : Except DevErr (List Device)) :
    List DevListCall :=
  match queryResult with
  | .error e => [.err e]
  | .ok devices =>
      if devices.isEmpty then [.err (.notAny "devices")]
      else
        match mapSetApplicationName devices with
        | .error e => [.err e]
        | .ok mapped => [.ok mapped]

def getHandlerEnv (deviceId : String) : String → Option String :=
  fun n => if n = "deviceId" then some deviceId else none

def jsVar (env : String → Option String) (n : String) : Except DevErr String :=
  match env n with
  | none => .error (.referenceError (n ++ " is not defined"))
  | some v => .ok v

def deviceGet (deviceId : String)
    (queryResult : Except DevErr (Option Device)) : List DevGetCall :=
  match queryResult with
  | .error e => [.err e]
  | .ok none =>
      match (jsVar (getHandlerEnv deviceId) "id").map (fun v => "device " ++ v) with
      | .error e => [.err e]
      | .ok msg => [.err (.notFound msg)]
  | .ok (some d) =>
      match setApplicationName d with
      | .error e => [.err e]
      | .ok d2 => [.ok d2]

/-! ## Helper lemmas about JavaScript object property assignment -/

theorem setProp_mem_self (hs : List (String × String)) (k v : String) :
    (k, v) ∈ setProp hs k v := by
  unfold setProp
  split
  case isTrue h =>
    obtain ⟨p, hp, hpk⟩ := List.any_eq_true.mp h
    exact List.mem_map.mpr ⟨p, hp, by simp_all⟩
  case isFalse h => simp

theorem setProp_key_val (hs : List (String × String)) (k v : String) :
    ∀ p ∈ setProp hs k v, p.1 = k → p.2 = v := by
  unfold setProp
  split
  case isTrue h =>
    intro p hp hpk
    obtain ⟨q, hq, hqe⟩ := List.mem_map.mp hp
    by_cases h2 : q.1 = k
    · rw [if_pos h2] at hqe
      rw [← hqe]
    · rw [if_neg h2] at hqe
      rw [hqe] at h2
      exact absurd hpk h2
  case isFalse h =>
    intro p hp hpk
    rcases List.mem_append.mp hp with hmem | hmem
    · exact absurd (List.any_eq_true.mpr ⟨p, hmem, by simp [hpk]⟩) h
    · simp only [List.mem_singleton] at hmem
      rw [hmem]

theorem setProp_mem_of_ne (hs : List (String × String)) (k v k2 v2 : String)
    (hne : k2 ≠ k) : ((k2, v2) ∈ hs) ↔ ((k2, v2) ∈ setProp hs k v) := by
  unfold setProp
  split
  case isTrue h =>
    constructor
    · intro hmem
      exact List.mem_map.mpr ⟨(k2, v2), hmem, by simp [hne]⟩
    · intro hmem
      obtain ⟨q, hq, hqe⟩ := List.mem_map.mp hmem
      by_cases h2 : q.1 = k
      · rw [if_pos h2] at hqe
        exact absurd (congrArg Prod.fst hqe.symm) hne
      · rw [if_neg h2] at hqe
        rw [← hqe]
        exact hq
  case isFalse h =>
    constructor
    · intro hmem
      exact List.mem_append.mpr (.inl hmem)
    · intro hmem
      rcases List.mem_append.mp hmem with hmem | hmem
      · exact hmem
      · simp only [List.mem_singleton, Prod.mk.injEq] at hmem
        exact absurd hmem.1 hne

/-! ## Shared facts used by the exactly-once theorems -/

theorem checkIfOnline_calls_length (probe : Except String Bool) :
    (checkIfOnline probe).length = 1 := by
  rcases probe with e | b
  · rfl
  · cases b <;> rfl

theorem sendRequest_calls_length {α : Type} (parse : String → Option α)
    (outcome : Except String Response) : (sendRequest parse outcome).length = 1 := by
  unfold sendRequest sendRequestInstr
  rcases outcome with e | r
  · rfl
  · dsimp only
    split
    · rfl
    · split <;> rfl

theorem authenticate_some_calls (o : ReqOptions)
    (tok : Except String (Option String)) :
    ∃ calls o2, authenticate (some o) tok = .ok (calls, o2) ∧ calls.length = 1 := by
  rcases tok with e | t
  · exact ⟨[some e], o, rfl, rfl⟩
  · rcases t with _ | t
    · exact ⟨[none], o, rfl, rfl⟩
    · refine ⟨[none], { o with headers := some (setProp (o.headers.getD [])
        "Authorization" ("Bearer " ++ t)) }, ?_, rfl⟩
      simp [authenticate, addAuthorizationHeader]

theorem pipeCalls_per_terminal_event (trace : List PipeEvent) :
    (pipeCallbackCalls trace).length =
      (trace.filter PipeEvent.isTerminal).length := by
  induction trace with
  | nil => rfl
  | cons e rest ih =>
      cases e <;>
        simp [pipeCallbackCalls, PipeEvent.isTerminal, List.filter_cons, ih]

/-! ## Claims -/

/-- C1: `pipeRequest` registers the terminal callback on the request
stream's `'error'` event and on the sink's `'error'` and `'close'`
events with no once-guard, so a transfer in which the sink reports an
error and then closes invokes `onComplete` twice — first with the sink
error, then with no error — contradicting the claimed exactly-once,
first-error-wins contract.  This theorem evaluates the embedding at
that failing trace. -/
theorem pipeRequest_double_completion :
    pipeCallbackCalls [.sinkError "EACCES", .sinkClose] = [some "EACCES", none] ∧
    (pipeCallbackCalls [.sinkError "EACCES", .sinkClose]).length = 2 ∧
    pipeCallbackCalls [.reqError "e1", .sinkError "e2"] = [some "e1", some "e2"] :=
  ⟨rfl, rfl, rfl⟩

/-- C2 counterexample: when the probe reports offline, the callback does
not receive an error with the message "no network connectivity"; the
message the code installs is
"You need internet connection to perform this task". -/
theorem checkIfOnline_offline_message_ne :
    checkIfOnline (.ok false) ≠ [some "no network connectivity"] ∧
    checkIfOnline (.ok false) = [some offlineMessage] := by
  exact ⟨by decide, rfl⟩

/-- C2 (amended): for every invocation of `checkIfOnline`: if the
reachability probe itself fails, the callback receives that underlying
error; if the probe reports online, the callback receives no error; and
if the probe reports offline, the callback receives an error carrying
the fixed user-facing message
"You need internet connection to perform this task". -/
theorem checkIfOnline_spec (probe : Except String Bool) :
    (∀ e, probe = .error e → checkIfOnline probe = [some e]) ∧
    (probe = .ok true → checkIfOnline probe = [none]) ∧
    (probe = .ok false → checkIfOnline probe = [some offlineMessage]) := by
  refine ⟨?_, ?_, ?_⟩
  · rintro e rfl
    rfl
  · rintro rfl
    rfl
  · rintro rfl
    rfl

/-- C2 witness: the amended theorem applied to the concrete offline
probe outcome. -/
theorem checkIfOnline_spec_witness :
    checkIfOnline (.ok false) = [some offlineMessage] :=
  (checkIfOnline_spec (.ok false)).2.2 rfl

/-- C3: a transport success whose response has status ≥ 400 yields an
error callback whose message is exactly the raw response body, and
every invocation of `sendRequest` performs exactly one callback
invocation (so exactly one of error or success-with-response, never
both). -/
theorem sendRequest_error_status {α : Type} (parse : String → Option α)
    (outcome : Except String Response) :
    (∀ r, outcome = .ok r → 400 ≤ r.statusCode →
      sendRequest parse outcome = [.err r.body]) ∧
    (sendRequest parse outcome).length = 1 := by
  refine ⟨?_, sendRequest_calls_length parse outcome⟩
  rintro r rfl h
  simp [sendRequest, sendRequestInstr, h]

/-- C3 witness: the theorem applied to a 404 response with body
"missing" yields an error callback with message exactly "missing". -/
theorem sendRequest_error_status_witness :
    sendRequest (fun _ => (none : Option Unit)) (.ok ⟨404, "missing"⟩) =
      [.err "missing"] :=
  (sendRequest_error_status (fun _ => (none : Option Unit))
    (.ok ⟨404, "missing"⟩)).1 ⟨404, "missing"⟩ rfl (by decide)

/-- C4: on a transport success with status < 400, exactly one
`JSON.parse` attempt is made on the body; if parsing succeeds the
callback receives success with the parsed structure as the body, and if
parsing fails the callback still receives success with the raw text
body unchanged — never an error. -/
theorem sendRequest_parse_spec {α : Type} (parse : String → Option α)
    (outcome : Except String Response) (r : Response)
    (hout : outcome = .ok r) (hst : r.statusCode < 400) :
    (sendRequestInstr parse outcome).2 = 1 ∧
    (∀ a, parse r.body = some a →
      sendRequest parse outcome = [.ok r.statusCode (.parsed a)]) ∧
    (parse r.body = none →
      sendRequest parse outcome = [.ok r.statusCode (.raw r.body)]) := by
  subst hout
  have h4 : ¬ 400 ≤ r.statusCode := by omega
  refine ⟨?_, ?_, ?_⟩
  · simp only [sendRequestInstr]
    rw [if_neg h4]
    rcases hp : parse r.body with _ | a <;> simp [hp]
  · intro a hp
    simp [sendRequest, sendRequestInstr, h4, hp]
  · intro hp
    simp [sendRequest, sendRequestInstr, h4, hp]

/-- C4 witness: the theorem applied to a 200 response with the
unparseable body "not json": the body is kept raw and unchanged. -/
theorem sendRequest_parse_spec_witness :
    sendRequest (fun s => if s = "j" then some 7 else none)
      (.ok ⟨200, "not json"⟩) = [.ok 200 (.raw "not json")] :=
  (sendRequest_parse_spec (fun s => if s = "j" then some 7 else none)
    (.ok ⟨200, "not json"⟩) ⟨200, "not json"⟩ rfl (by decide)).2.2 (by decide)

/-- C5: with a present token `t`, `addAuthorizationHeader` succeeds,
the result maps `Authorization` to `"Bearer " ++ t` (any entry with
that key has that value), every entry of the input headers under any
other key is preserved, and absent headers start from the empty set;
with an absent token it fails fatally for all headers. -/
theorem addAuthorizationHeader_spec :
    (∀ (H : Option (List (String × String))) (t : String),
      ∃ hs, addAuthorizationHeader H (some t) = .ok hs ∧
        ("Authorization", "Bearer " ++ t) ∈ hs ∧
        (∀ p ∈ hs, p.1 = "Authorization" → p.2 = "Bearer " ++ t) ∧
        (∀ k v, k ≠ "Authorization" →
          (((k, v) ∈ H.getD []) ↔ (k, v) ∈ hs))) ∧
    (∀ t, addAuthorizationHeader none (some t) =
      .ok [("Authorization", "Bearer " ++ t)]) ∧
    (∀ H, addAuthorizationHeader H none = .error "Missing token") := by
  refine ⟨?_, ?_, ?_⟩
  · intro H t
    refine ⟨setProp (H.getD []) "Authorization" ("Bearer " ++ t), rfl, ?_, ?_, ?_⟩
    · exact setProp_mem_self _ _ _
    · exact setProp_key_val _ _ _
    · intro k v hk
      exact setProp_mem_of_ne _ _ _ k v hk
  · intro t
    rfl
  · intro H
    rcases H with _ | hs <;> rfl

/-- C5 witness: the theorem applied to headers `[("X", "1")]` and token
"tok": the existing entry is preserved and `Authorization` is set. -/
theorem addAuthorizationHeader_spec_witness :
    ∃ hs, addAuthorizationHeader (some [("X", "1")]) (some "tok") = .ok hs ∧
      ("Authorization", "Bearer " ++ "tok") ∈ hs ∧ ("X", "1") ∈ hs := by
  obtain ⟨hs, h1, h2, _, h4⟩ :=
    addAuthorizationHeader_spec.1 (some [("X", "1")]) "tok"
  exact ⟨hs, h1, h2, (h4 "X" "1" (by decide)).mp (by decide)⟩

/-- C6: for `authenticate` with options present: a token-store failure
is propagated to the callback; a present token updates the options'
headers with the Bearer Authorization header (other header entries
preserved) and reports success; an absent token reports success with
the options completely unchanged. -/
theorem authenticate_spec (o : ReqOptions) (tok : Except String (Option String)) :
    (∀ e, tok = .error e → authenticate (some o) tok = .ok ([some e], o)) ∧
    (tok = .ok none → authenticate (some o) tok = .ok ([none], o)) ∧
    (∀ t, tok = .ok (some t) →
      ∃ hs, authenticate (some o) tok =
          .ok ([none], { o with headers := some hs }) ∧
        ("Authorization", "Bearer " ++ t) ∈ hs ∧
        (∀ p ∈ hs, p.1 = "Authorization" → p.2 = "Bearer " ++ t) ∧
        (∀ k v, k ≠ "Authorization" →
          (((k, v) ∈ o.headers.getD []) ↔ (k, v) ∈ hs))) := by
  refine ⟨?_, ?_, ?_⟩
  · rintro e rfl
    rfl
  · rintro rfl
    rfl
  · rintro t rfl
    refine ⟨setProp (o.headers.getD []) "Authorization" ("Bearer " ++ t), ?_,
      setProp_mem_self _ _ _, setProp_key_val _ _ _,
      fun k v hk => setProp_mem_of_ne _ _ _ k v hk⟩
    simp [authenticate, addAuthorizationHeader]

/-- C6 witness: the theorem applied to concrete options with no headers
and each of the three token-store outcomes. -/
theorem authenticate_spec_witness :
    authenticate (some ⟨none, []⟩) (.error "boom") = .ok ([some "boom"], ⟨none, []⟩) ∧
    authenticate (some ⟨none, []⟩) (.ok none) = .ok ([none], ⟨none, []⟩) ∧
    ∃ hs, authenticate (some ⟨none, []⟩) (.ok (some "tok")) =
        .ok ([none], ⟨some hs, []⟩) ∧ ("Authorization", "Bearer " ++ "tok") ∈ hs := by
  refine ⟨(authenticate_spec ⟨none, []⟩ (.error "boom")).1 "boom" rfl,
    (authenticate_spec ⟨none, []⟩ (.ok none)).2.1 rfl, ?_⟩
  obtain ⟨hs, h1, h2, _⟩ := (authenticate_spec ⟨none, []⟩ (.ok (some "tok"))).2.2 "tok" rfl
  exact ⟨hs, h1, h2⟩

/-- C7 counterexample: `authenticate` invoked with absent options
throws synchronously (`throw new Error('Missing options')`) before any
callback invocation, so it is not true that every asynchronous entry
point reports failure only through its callback for every input. -/
theorem authenticate_throws_on_missing_options :
    authenticate none (.ok none) = .error "Missing options" := rfl

/-- C7 (amended): `checkIfOnline` and `sendRequest` perform exactly one
callback invocation on every input with no synchronous throw, and so
does `authenticate` whenever options are present; `authenticate` with
absent options instead throws synchronously with "Missing options" and
performs no callback invocation; `pipeRequest` performs one callback
invocation per terminal event of the transfer (request-stream error,
sink error, sink close), hence exactly one on any transfer with exactly
one terminal event. -/
theorem async_entry_points_report_once (α : Type) :
    (∀ probe, (checkIfOnline probe).length = 1) ∧
    (∀ (parse : String → Option α) outcome,
      (sendRequest parse outcome).length = 1) ∧
    (∀ (o : ReqOptions) tok, ∃ calls o2,
      authenticate (some o) tok = .ok (calls, o2) ∧ calls.length = 1) ∧
    (∀ tok, authenticate none tok = .error "Missing options") ∧
    (∀ trace, (pipeCallbackCalls trace).length =
      (trace.filter PipeEvent.isTerminal).length) :=
  ⟨checkIfOnline_calls_length, sendRequest_calls_length,
    authenticate_some_calls, fun _ => rfl, pipeCalls_per_terminal_event⟩

/-- C7 witness: the amended theorem applied at concrete inputs — an
online probe and a single-terminal-event pipe trace. -/
theorem async_entry_points_report_once_witness :
    (checkIfOnline (.ok true)).length = 1 ∧
    (pipeCallbackCalls [.sinkClose]).length =
      ([PipeEvent.sinkClose].filter PipeEvent.isTerminal).length :=
  ⟨(async_entry_points_report_once Unit).1 (.ok true),
    (async_entry_points_report_once Unit).2.2.2.2 [.sinkClose]⟩

/-- C8: for one transfer of known total size 1000 with samples
(transferred 0 at time 0, transferred 500 at time 1 s), the tracker's
first snapshot reports speed 0 and its second snapshot reports
percentage 50 = floor(100 * 500 / 1000), speed 500 bytes/sec and
eta 1 s. -/
theorem progressTracker_example :
    runTracker TrackerState.initial
        [⟨0, some 1000, 0⟩, ⟨500, some 1000, 1⟩] =
      [⟨some 0, 0, some 1000, 0, none⟩,
        ⟨some 50, 500, some 1000, 500, some 1⟩] := by
  have h1 : stepTracker TrackerState.initial ⟨0, some 1000, 0⟩ =
      (⟨some 0, 0, some 1000, 0, none⟩, ⟨some 0, 0⟩) := by
    norm_num [stepTracker, TrackerState.initial]
  have h2 : stepTracker ⟨some 0, 0⟩ ⟨500, some 1000, 1⟩ =
      (⟨some 50, 500, some 1000, 500, some 1⟩, ⟨some 1, 500⟩) := by
    norm_num [stepTracker]
  simp [runTracker, h1, h2]

/-- C9: when the query resolves with no device, `exports.get` tries to
build the message "device " + id but `id` is unbound in every enclosing
scope, so the handler throws a `ReferenceError` which the chained catch
hands to the callback — the callback receives the reference fault and
never the intended NotFound error naming `deviceId`. -/
theorem deviceGet_unbound_id (deviceId : String)
    (queryResult : Except DevErr (Option Device)) (h : queryResult = .ok none) :
    deviceGet deviceId queryResult =
      [.err (.referenceError "id is not defined")] ∧
    ∀ msg, deviceGet deviceId queryResult ≠ [.err (.notFound msg)] := by
  subst h
  have hmain : deviceGet deviceId (.ok none) =
      [.err (.referenceError "id is not defined")] := by
    simp [deviceGet, jsVar, getHandlerEnv, Except.map]
  refine ⟨hmain, fun msg hEq => ?_⟩
  rw [hmain] at hEq
  simp at hEq

/-- C9 witness: the theorem applied to device id "51" and an absent
query result. -/
theorem deviceGet_unbound_id_witness :
    deviceGet "51" (.ok none) = [.err (.referenceError "id is not defined")] :=
  (deviceGet_unbound_id "51" (.ok none) rfl).1

theorem mapSetApplicationName_cons_ne_nil (d : Device) (rest : List Device)
    (mapped : List Device)
    (h : mapSetApplicationName (d :: rest) = .ok mapped) : mapped ≠ [] := by
  unfold mapSetApplicationName at h
  rcases h1 : setApplicationName d with e | d2 <;> rw [h1] at h
  · exact absurd h (by simp)
  · rcases h2 : mapSetApplicationName rest with e | ds <;> rw [h2] at h
    · exact absurd h (by simp [Except.map])
    · simp only [Except.map] at h
      injection h with h3
      rw [← h3]
      simp

/-- C10: `getAll` and `getAllByApplication` turn an empty query result
into a NotAny("devices") error callback, and every success callback
they make carries a non-empty device list. -/
theorem deviceList_no_empty_success (queryResult : Except DevErr (List Device)) :
    (queryResult = .ok [] →
      getAll queryResult = [.err (.notAny "devices")] ∧
      getAllByApplication queryResult = [.err (.notAny "devices")]) ∧
    (∀ ds, DevListCall.ok ds ∈ getAll queryResult → ds ≠ []) ∧
    (∀ ds, DevListCall.ok ds ∈ getAllByApplication queryResult → ds ≠ []) := by
  refine ⟨?_, ?_, ?_⟩
  · rintro rfl
    exact ⟨rfl, rfl⟩
  · intro ds hmem
    rcases queryResult with e | devices
    · simp [getAll] at hmem
    · rcases devices with _ | ⟨d, rest⟩
      · simp [getAll] at hmem
      · simp [getAll] at hmem
        rw [hmem]
        simp
  · intro ds hmem
    rcases queryResult with e | devices
    · simp [getAllByApplication] at hmem
    · rcases devices with _ | ⟨d, rest⟩
      · simp [getAllByApplication] at hmem
      · rcases hm : mapSetApplicationName (d :: rest) with e | mapped <;>
          simp [getAllByApplication, hm] at hmem
        rw [hmem]
        exact mapSetApplicationName_cons_ne_nil d rest mapped hm

/-- C10 witness: the theorem applied to a query resolving with the
empty collection. -/
theorem deviceList_no_empty_success_witness :
    getAll (.ok []) = [.err (.notAny "devices")] ∧
    getAllByApplication (.ok []) = [.err (.notAny "devices")] :=
  (deviceList_no_empty_success (.ok [])).1 rfl

end BalenaSdk
